import Mathlib

/-!
Verification development for the Tele_SmsPool bot: a shallow embedding of
the remote inventory client (smspool_api.py), the order/user store
(database.py) and the two monitor loops (monitoring.py), with theorems
settling the specification claims about them.

Timestamps are modelled as integers (seconds); SQL REAL money values as
rationals; Python dicts returned by the API as Lean structures; Python
exceptions as the Except monad, with try/except blocks embedded by the
pyTry / pyTryCatch combinators below.
-/

/-- A JSON field value that Python's int() either parses or raises on. -/
inductive PyIntV
  | val (n : Int)
  | notNum
  deriving DecidableEq, Repr

/-- A JSON field value that Python's float() either parses or raises on. -/
inductive PyFloatV
  | val (q : Rat)
  | notNum
  deriving DecidableEq, Repr

/-- The transport-level outcome of one HTTP POST in SMSPoolAPI._make_request
(smspool_api.py lines 28-71): HTTP 200 with a JSON body, HTTP 422 whose body
may or may not parse as JSON, any other status, a timeout, or an exception
raised inside _make_request's own try block. -/
inductive RequestOutcome (α : Type)
  | status200 (body : α)
  | status422 (body : Option α)
  | otherStatus (code : Nat)
  | timeout
  | raisedInRequest
  deriving DecidableEq, Repr

/-- SMSPoolAPI._make_request (smspool_api.py lines 28-71): returns the parsed
JSON on HTTP 200, the parsed JSON on HTTP 422 when the body is JSON, and
None in every other case (non-JSON 422, other status, timeout, exception);
its internal try/except means it never raises to its caller. -/
def make_request {α : Type} : RequestOutcome α → Option α
  | RequestOutcome.status200 body => some body
  | RequestOutcome.status422 (some body) => some body
  | RequestOutcome.status422 none => none
  | RequestOutcome.otherStatus _ => none
  | RequestOutcome.timeout => none
  | RequestOutcome.raisedInRequest => none

/-- What an API operation's try block observes: the transport outcome of its
_make_request call, or an exception raised elsewhere inside the try block
(modelling Python's ability to raise from any dynamic operation). -/
inductive Transport (α : Type)
  | net (o : RequestOutcome α)
  | raisedInBody
  deriving DecidableEq, Repr

/-- Embeds a Python `try: return body except Exception: return handler`
block as a total function: the handler absorbs every raised exception. -/
def pyTry {α : Type} (body : Except String α) (handler : String → α) : α :=
  match body with
  | Except.ok a => a
  | Except.error e => handler e

/-- The same try/except block, kept in the Except monad so that "the
operation raised to its caller" remains expressible as an error value. -/
def pyTryCatch {α : Type} (body : Except String α) (handler : String → α) :
    Except String α :=
  match body with
  | Except.ok a => Except.ok a
  | Except.error e => Except.ok (handler e)

/-- Python int(x) on a field read with default 0: absent defaults to 0,
a non-numeric value raises ValueError. -/
def pyInt : Option PyIntV → Except String Int
  | none => Except.ok 0
  | some (PyIntV.val n) => Except.ok n
  | some PyIntV.notNum => Except.error "invalid literal for int"

/-- JSON body of /request/balance responses, as read by verify_api_key and
get_balance: optional balance (float-parsable or not), error marker,
success flag and message. -/
structure BalanceResponse where
  balance : Option PyFloatV
  error_ : Option String
  success : Option Int
  message : Option String
  deriving DecidableEq, Repr

/-- JSON body of /sms/stock responses, as read by
check_service_availability: success flag, amount (the real field),
legacy stock field, message. -/
structure StockResponse where
  success : Option Int
  amount : Option PyIntV
  stock : Option PyIntV
  message : Option String
  deriving DecidableEq, Repr

/-- JSON body of /request/price responses: an optional price field. -/
structure PriceResponse where
  price : Option PyFloatV
  deriving DecidableEq, Repr

/-- JSON body of /sms/check responses, as read by check_sms. -/
structure SmsCheckResponse where
  code : Option String
  full_code : Option String
  status : Option String
  deriving DecidableEq, Repr

/-- JSON body of /sms/cancel responses, as read by cancel_order. -/
structure CancelResponse where
  success : Option Int
  message : Option String
  deriving DecidableEq, Repr

/-- JSON body of /purchase/sms responses, as read by rent_number. The two
regex extractions of (price, balance) from the error message and from the
first pool's message (smspool_api.py lines 364-407) are modelled
abstractly as optional pairs carried on the response. -/
structure PurchaseResponse where
  success : Option Int
  order_id : Option String
  number : Option String
  expires_in : Option Int
  price : Option Rat
  message : Option String
  errorType : Option String
  priceBalanceMatch : Option (Rat × Rat)
  poolsMatch : Option (Rat × Rat)
  deriving DecidableEq, Repr

/-- Result dict of verify_api_key (smspool_api.py lines 73-128). -/
structure VerifyResult where
  valid : Bool
  balance : Rat
  message : String
  deriving DecidableEq, Repr

/-- Result dict of check_service_availability (smspool_api.py 130-231). -/
structure AvailabilityResult where
  available : Bool
  count : Int
  price : Rat
  service_name : String
  message : String
  deriving DecidableEq, Repr

/-- Result dict of rent_number (smspool_api.py lines 320-446). -/
structure RentResult where
  success : Bool
  order_id : Option String
  phone_number : Option String
  price : Rat
  expires_in : Int
  message : String
  deriving DecidableEq, Repr

/-- Result dict of check_sms (smspool_api.py lines 448-503). -/
structure SmsResult where
  received : Bool
  sms_content : Option String
  full_sms : Option String
  message : String
  deriving DecidableEq, Repr

/-- Result dict of cancel_order (smspool_api.py lines 505-531). -/
structure CancelResult where
  success : Bool
  message : String
  deriving DecidableEq, Repr

/-- Result dict of get_balance (smspool_api.py lines 533-566). -/
structure BalanceResult where
  success : Bool
  balance : Rat
  message : String
  deriving DecidableEq, Repr

/-- SMSPoolAPI._get_service_price (smspool_api.py lines 233-249): returns
the parsed price field, and the 4.80 fallback on any failure (its own
try/except makes it total). -/
def get_service_price : Transport PriceResponse → Rat
  | Transport.raisedInBody => 4.80
  | Transport.net o =>
    match make_request o with
    | some pr =>
      match pr.price with
      | some (PyFloatV.val q) => q
      | some PyFloatV.notNum => 4.80
      | none => 4.80
    | none => 4.80

/-- Try-block body of SMSPoolAPI.verify_api_key (smspool_api.py 73-128);
the float() conversion of the balance is guarded by its own inner
except (ValueError, TypeError), so it cannot escape to the outer handler. -/
def verify_api_key_body (t : Transport BalanceResponse) :
    Except String VerifyResult :=
  match t with
  | Transport.raisedInBody => Except.error "exception"
  | Transport.net o =>
    match make_request o with
    | some r =>
      match r.balance with
      | some (PyFloatV.val q) =>
        Except.ok { valid := true, balance := q, message := "API key valid" }
      | some PyFloatV.notNum =>
        Except.ok { valid := false, balance := 0,
                    message := "invalid balance format" }
      | none =>
        if r.error_.isSome || r.success == some 0 then
          Except.ok { valid := false, balance := 0,
                      message := r.message.getD "invalid API key" }
        else
          Except.ok { valid := false, balance := 0,
                      message := "unexpected response format" }
    | none =>
      Except.ok { valid := false, balance := 0,
                  message := "cannot connect to SMSPool API" }

/-- The except-branch fallback dict of verify_api_key. -/
def verify_api_key_fallback (e : String) : VerifyResult :=
  { valid := false, balance := 0, message := e }

/-- SMSPoolAPI.verify_api_key as seen by its caller. -/
def verify_api_key (t : Transport BalanceResponse) : VerifyResult :=
  pyTry (verify_api_key_body t) verify_api_key_fallback

/-- verify_api_key with the try/except kept in the exception monad. -/
def verify_api_key_checked (t : Transport BalanceResponse) :
    Except String VerifyResult :=
  pyTryCatch (verify_api_key_body t) verify_api_key_fallback

/-- Try-block body of SMSPoolAPI.check_service_availability
(smspool_api.py 130-231): success=1 path parses the amount field with
int() (which may raise), success=0 path is a typed failure, a legacy
stock field is parsed the same way, anything else is an unrecognized
format; a missing response is a typed failure. The price of an available
service is fetched via _get_service_price. -/
def check_service_availability_body (t : Transport StockResponse)
    (pt : Transport PriceResponse) : Except String AvailabilityResult :=
  match t with
  | Transport.raisedInBody => Except.error "exception"
  | Transport.net o =>
    match make_request o with
    | some r =>
      if r.success == some 1 then
        match pyInt r.amount with
        | Except.error e => Except.error e
        | Except.ok n =>
          if 0 < n then
            Except.ok { available := true, count := n,
                        price := get_service_price pt,
                        service_name := "Pokemon Center",
                        message := "stock available" }
          else
            Except.ok { available := false, count := 0, price := 0,
                        service_name := "Pokemon Center",
                        message := "no stock right now" }
      else if r.success == some 0 then
        Except.ok { available := false, count := 0, price := 0,
                    service_name := "Pokemon Center",
                    message := "API error" }
      else if r.stock.isSome then
        match pyInt r.stock with
        | Except.error e => Except.error e
        | Except.ok n =>
          if 0 < n then
            Except.ok { available := true, count := n,
                        price := get_service_price pt,
                        service_name := "Pokemon Center",
                        message := "stock available" }
          else
            Except.ok { available := false, count := 0, price := 0,
                        service_name := "Pokemon Center",
                        message := "no stock right now" }
      else
        Except.ok { available := false, count := 0, price := 0,
                    service_name := "Pokemon Center",
                    message := "unrecognized response format" }
    | none =>
      Except.ok { available := false, count := 0, price := 0,
                  service_name := "Pokemon Center",
                  message := "no response from API" }

/-- The except-branch fallback dict of check_service_availability. -/
def check_service_availability_fallback (e : String) : AvailabilityResult :=
  { available := false, count := 0, price := 0,
    service_name := "Pokemon Center", message := e }

/-- SMSPoolAPI.check_service_availability as seen by its caller. -/
def check_service_availability (t : Transport StockResponse)
    (pt : Transport PriceResponse) : AvailabilityResult :=
  pyTry (check_service_availability_body t pt)
    check_service_availability_fallback

/-- check_service_availability with the try/except kept in the
exception monad. -/
def check_service_availability_checked (t : Transport StockResponse)
    (pt : Transport PriceResponse) : Except String AvailabilityResult :=
  pyTryCatch (check_service_availability_body t pt)
    check_service_availability_fallback

/-- Try-block body of SMSPoolAPI.rent_number (smspool_api.py 320-446).
On success=1 the price defaults through an inner bare try/except around a
second price request (pt2); on failure a balance error is recognized from
the type field or an "Insufficient balance" message and reported with a
price recovered by regex from the message, from the pools data, or as the
hard-coded 4.80 estimate. -/
def rent_number_body (t : Transport PurchaseResponse)
    (pt2 : Transport PriceResponse) : Except String RentResult :=
  match t with
  | Transport.raisedInBody => Except.error "exception"
  | Transport.net o =>
    match make_request o with
    | some r =>
      if r.success == some 1 then
        let base : Rat := r.price.getD 0
        let price : Rat :=
          if base == 0 then
            match pt2 with
            | Transport.raisedInBody => 0.5
            | Transport.net o2 =>
              match make_request o2 with
              | some pr =>
                match pr.price with
                | some (PyFloatV.val q) => q
                | some PyFloatV.notNum => 0.5
                | none => 0
              | none => 0
          else base
        Except.ok { success := true, order_id := r.order_id,
                    phone_number := r.number, price := price,
                    expires_in := r.expires_in.getD 600,
                    message := "rented successfully" }
      else
        let error_msg := r.message.getD "cannot rent a number"
        let error_type := r.errorType.getD ""
        if error_type == "BALANCE_ERROR"
            || decide (List.IsInfix "Insufficient balance".toList
                 error_msg.toList) then
          match r.priceBalanceMatch with
          | some pb =>
            Except.ok { success := false, order_id := none,
                        phone_number := none, price := pb.1,
                        expires_in := 0, message := "insufficient funds" }
          | none =>
            match r.poolsMatch with
            | some pb =>
              Except.ok { success := false, order_id := none,
                          phone_number := none, price := pb.1,
                          expires_in := 0, message := "insufficient funds" }
            | none =>
              Except.ok { success := false, order_id := none,
                          phone_number := none, price := 4.80,
                          expires_in := 0, message := "insufficient funds" }
        else
          Except.ok { success := false, order_id := none,
                      phone_number := none, price := 0,
                      expires_in := 0, message := error_msg }
    | none =>
      Except.ok { success := false, order_id := none, phone_number := none,
                  price := 0, expires_in := 0,
                  message := "API connection error" }

/-- The except-branch fallback dict of rent_number. -/
def rent_number_fallback (e : String) : RentResult :=
  { success := false, order_id := none, phone_number := none,
    price := 0, expires_in := 0, message := e }

/-- SMSPoolAPI.rent_number as seen by its caller. -/
def rent_number (t : Transport PurchaseResponse)
    (pt2 : Transport PriceResponse) : RentResult :=
  pyTry (rent_number_body t pt2) rent_number_fallback

/-- rent_number with the try/except kept in the exception monad. -/
def rent_number_checked (t : Transport PurchaseResponse)
    (pt2 : Transport PriceResponse) : Except String RentResult :=
  pyTryCatch (rent_number_body t pt2) rent_number_fallback

/-- Try-block body of SMSPoolAPI.check_sms (smspool_api.py 448-503): a
truthy code field or a completed status yields received = true, anything
else (including a missing response) yields received = false with no
content. -/
def check_sms_body (t : Transport SmsCheckResponse) :
    Except String SmsResult :=
  match t with
  | Transport.raisedInBody => Except.error "exception"
  | Transport.net o =>
    match make_request o with
    | some r =>
      match r.code with
      | some s =>
        if s ≠ "" then
          Except.ok { received := true, sms_content := some s,
                      full_sms := some (r.full_code.getD s),
                      message := "SMS received" }
        else if r.status == some "completed" then
          Except.ok { received := true, sms_content := some s,
                      full_sms := some (r.full_code.getD s),
                      message := "SMS received" }
        else
          Except.ok { received := false, sms_content := none,
                      full_sms := none, message := "no SMS yet" }
      | none =>
        if r.status == some "completed" then
          Except.ok { received := true, sms_content := some "N/A",
                      full_sms := some (r.full_code.getD "N/A"),
                      message := "SMS received" }
        else
          Except.ok { received := false, sms_content := none,
                      full_sms := none, message := "no SMS yet" }
    | none =>
      Except.ok { received := false, sms_content := none,
                  full_sms := none, message := "SMS check error" }

/-- The except-branch fallback dict of check_sms. -/
def check_sms_fallback (e : String) : SmsResult :=
  { received := false, sms_content := none, full_sms := none, message := e }

/-- SMSPoolAPI.check_sms as seen by its caller. -/
def check_sms (t : Transport SmsCheckResponse) : SmsResult :=
  pyTry (check_sms_body t) check_sms_fallback

/-- check_sms with the try/except kept in the exception monad. -/
def check_sms_checked (t : Transport SmsCheckResponse) :
    Except String SmsResult :=
  pyTryCatch (check_sms_body t) check_sms_fallback

/-- Try-block body of SMSPoolAPI.cancel_order (smspool_api.py 505-531). -/
def cancel_order_body (t : Transport CancelResponse) :
    Except String CancelResult :=
  match t with
  | Transport.raisedInBody => Except.error "exception"
  | Transport.net o =>
    match make_request o with
    | some r =>
      if r.success == some 1 then
        Except.ok { success := true, message := "order cancelled, refunded" }
      else
        Except.ok { success := false,
                    message := r.message.getD "cannot cancel the order" }
    | none =>
      Except.ok { success := false, message := "API Error" }

/-- The except-branch fallback dict of cancel_order. -/
def cancel_order_fallback (e : String) : CancelResult :=
  { success := false, message := e }

/-- SMSPoolAPI.cancel_order as seen by its caller. -/
def cancel_order (t : Transport CancelResponse) : CancelResult :=
  pyTry (cancel_order_body t) cancel_order_fallback

/-- cancel_order with the try/except kept in the exception monad. -/
def cancel_order_checked (t : Transport CancelResponse) :
    Except String CancelResult :=
  pyTryCatch (cancel_order_body t) cancel_order_fallback

/-- Try-block body of SMSPoolAPI.get_balance (smspool_api.py 533-566);
the float() conversion is guarded by its own inner except. -/
def get_balance_body (t : Transport BalanceResponse) :
    Except String BalanceResult :=
  match t with
  | Transport.raisedInBody => Except.error "exception"
  | Transport.net o =>
    match make_request o with
    | some r =>
      match r.balance with
      | some (PyFloatV.val q) =>
        Except.ok { success := true, balance := q,
                    message := "current balance" }
      | some PyFloatV.notNum =>
        Except.ok { success := false, balance := 0,
                    message := "invalid balance format" }
      | none =>
        Except.ok { success := false, balance := 0,
                    message := r.message.getD "cannot get the balance" }
    | none =>
      Except.ok { success := false, balance := 0, message := "API Error" }

/-- The except-branch fallback dict of get_balance. -/
def get_balance_fallback (e : String) : BalanceResult :=
  { success := false, balance := 0, message := e }

/-- SMSPoolAPI.get_balance as seen by its caller. -/
def get_balance (t : Transport BalanceResponse) : BalanceResult :=
  pyTry (get_balance_body t) get_balance_fallback

/-- get_balance with the try/except kept in the exception monad. -/
def get_balance_checked (t : Transport BalanceResponse) :
    Except String BalanceResult :=
  pyTryCatch (get_balance_body t) get_balance_fallback

/-- One row of the orders table (database.py lines 37-54). -/
structure Order where
  order_id : String
  user_id : Nat
  phone_number : String
  status : String
  price : Rat
  sms_content : Option String
  created_at : Int
  expires_at : Int
  completed_at : Option Int
  deriving DecidableEq, Repr

/-- One row of the users table (database.py lines 23-34). -/
structure User where
  user_id : Nat
  api_key : String
  balance : Rat
  is_active : Bool
  deriving DecidableEq, Repr

/-- One row of the monitoring_status table (database.py lines 57-65). -/
structure MonitoringStatus where
  user_id : Nat
  is_monitoring : Bool
  last_check : Int
  notification_sent : Bool
  deriving DecidableEq, Repr

/-- The persistent store: the three SQLite tables. -/
structure DBState where
  users : List User
  orders : List Order
  monitoring : List MonitoringStatus
  deriving DecidableEq, Repr

/-- Database.get_user (database.py 101-117): SELECT * FROM users WHERE
user_id = ? AND is_active = 1, first row or none. -/
def get_user (s : DBState) (uid : Nat) : Option User :=
  s.users.find? (fun u => u.user_id == uid && u.is_active)

/-- Database.get_all_active_users (database.py 119-137): active users
joined with monitoring_status, kept when is_monitoring is 1 or the
monitoring row is absent (LEFT JOIN with IS NULL). Row order is not
claim-relevant and is left as stored. -/
def get_all_active_users (s : DBState) : List User :=
  s.users.filter (fun u =>
    u.is_active &&
      (match s.monitoring.find? (fun m => m.user_id == u.user_id) with
       | some m => m.is_monitoring
       | none => true))

/-- Database.get_active_orders (database.py 180-197): SELECT * FROM orders
WHERE user_id = ? AND status = 'active' (ordering omitted). -/
def get_active_orders (s : DBState) (uid : Nat) : List Order :=
  s.orders.filter (fun o => o.user_id == uid && o.status == "active")

/-- Database.get_all_active_orders (database.py 199-216): SELECT * FROM
orders WHERE status = 'active' AND expires_at > CURRENT_TIMESTAMP
(ordering omitted). Note the expiry filter on top of the status filter. -/
def get_all_active_orders (s : DBState) (now : Int) : List Order :=
  s.orders.filter (fun o =>
    o.status == "active" && decide (now < o.expires_at))

/-- Database.update_order_sms (database.py 160-178): sets sms_content,
status = 'completed' and completed_at = CURRENT_TIMESTAMP on the row with
the given order_id. -/
def update_order_sms (s : DBState) (oid : String) (content : Option String)
    (now : Int) : DBState :=
  { s with orders := s.orders.map (fun o =>
      if o.order_id == oid then
        { o with sms_content := content, status := "completed",
                 completed_at := some now }
      else o) }

/-- Database.update_order_status (database.py 218-236): sets status and
completed_at = CURRENT_TIMESTAMP on the row with the given order_id. -/
def update_order_status (s : DBState) (oid : String) (st : String)
    (now : Int) : DBState :=
  { s with orders := s.orders.map (fun o =>
      if o.order_id == oid then
        { o with status := st, completed_at := some now }
      else o) }

/-- Database.update_user_balance (database.py 238-255). -/
def update_user_balance (s : DBState) (uid : Nat) (b : Rat) : DBState :=
  { s with users := s.users.map (fun u =>
      if u.user_id == uid then { u with balance := b } else u) }

/-- Database.update_monitoring_status (database.py 257-274): sets
last_check and notification_sent on the row with the given user_id. -/
def update_monitoring_status (s : DBState) (uid : Nat) (now : Int)
    (sent : Bool) : DBState :=
  { s with monitoring := s.monitoring.map (fun m =>
      if m.user_id == uid then
        { m with last_check := now, notification_sent := sent }
      else m) }

/-- Observable actions of one monitor iteration: remote calls made and
notifications handed to the Telegram bot, with the payload fields the
source interpolates into the message text. -/
inductive Effect
  | callCheckStock (user_id : Nat)
  | notifyAvailability (user_id : Nat) (count : Int) (price : Rat)
  | callCheckSms (order_id : String)
  | notifySmsReceived (user_id : Nat) (order_id : String)
      (content : Option String)
  | callCancel (order_id : String)
  | callGetBalance (user_id : Nat)
  | notifyRefunded (user_id : Nat) (order_id : String) (price : Rat)
      (shownBalance : Rat)
  | notifyExpired (user_id : Nat) (order_id : String)
  deriving DecidableEq, Repr

/-- MonitoringService._check_service_for_user (monitoring.py 88-116): skip
the user when they have any active order; otherwise call the stock check
and, when available with count > 0, send the availability notification and
record notification_sent = true, else record notification_sent = false.
The stock-check result is supplied by the caller's oracle. -/
def check_service_for_user (s : DBState) (u : User)
    (avail : AvailabilityResult) (now : Int) : DBState × List Effect :=
  if get_active_orders s u.user_id = [] then
    if avail.available && decide (0 < avail.count) then
      (update_monitoring_status s u.user_id now true,
       [Effect.callCheckStock u.user_id,
        Effect.notifyAvailability u.user_id avail.count avail.price])
    else
      (update_monitoring_status s u.user_id now false,
       [Effect.callCheckStock u.user_id])
  else
    (s, [])

/-- The sequential per-user loop of one availability sweep
(monitoring.py 63-79): users are processed in order, each against the
stock oracle, threading the store state and accumulating effects. -/
def run_users (stock : Nat → AvailabilityResult) (now : Int) :
    DBState → List User → DBState × List Effect
  | s, [] => (s, [])
  | s, u :: rest =>
    let p := check_service_for_user s u (stock u.user_id) now
    let q := run_users stock now p.1 rest
    (q.1, p.2 ++ q.2)

/-- One sweep of MonitoringService._monitor_service_availability
(monitoring.py 59-87): process every user returned by
get_all_active_users. -/
def availability_sweep (s : DBState) (stock : Nat → AvailabilityResult)
    (now : Int) : DBState × List Effect :=
  run_users stock now s (get_all_active_users s)

/-- MonitoringService._handle_sms_received (monitoring.py 210-234):
persist the SMS (status → completed, completed_at set) and notify the
user with the content. -/
def handle_sms_received (s : DBState) (o : Order) (now : Int)
    (sres : SmsResult) : DBState × List Effect :=
  (update_order_sms s o.order_id sres.sms_content now,
   [Effect.notifySmsReceived o.user_id o.order_id sres.sms_content])

/-- MonitoringService._handle_expired_order (monitoring.py 236-293): look
up the user (return silently when absent), request the refund; on success
set status → refunded, refresh the cached balance when get_balance
succeeds, and notify with price and the balance value of the get_balance
dict; on failure set status → expired and send the manual-support
notification. The remote results are supplied by the caller's oracle. -/
def handle_expired_order (s : DBState) (o : Order) (now : Int)
    (cres : CancelResult) (bres : BalanceResult) : DBState × List Effect :=
  match get_user s o.user_id with
  | none => (s, [])
  | some _ =>
    if cres.success then
      let s1 := update_order_status s o.order_id "refunded" now
      let s2 := if bres.success then
          update_user_balance s1 o.user_id bres.balance
        else s1
      (s2, [Effect.callCancel o.order_id,
            Effect.callGetBalance o.user_id,
            Effect.notifyRefunded o.user_id o.order_id o.price
              bres.balance])
    else
      (update_order_status s o.order_id "expired" now,
       [Effect.callCancel o.order_id,
        Effect.notifyExpired o.user_id o.order_id])

/-- MonitoringService._check_order_sms (monitoring.py 180-208): an order
past its expires_at is routed to expiry handling before any SMS check;
otherwise, when the user exists, the received-code check runs and a
received code is handed to _handle_sms_received, while a negative result
changes nothing. -/
def check_order_sms (s : DBState) (o : Order) (now : Int)
    (sres : SmsResult) (cres : CancelResult) (bres : BalanceResult) :
    DBState × List Effect :=
  if o.expires_at < now then
    handle_expired_order s o now cres bres
  else
    match get_user s o.user_id with
    | none => (s, [])
    | some _ =>
      if sres.received then
        let p := handle_sms_received s o now sres
        (p.1, Effect.callCheckSms o.order_id :: p.2)
      else
        (s, [Effect.callCheckSms o.order_id])

/-- The per-order remote results one lifecycle sweep observes. -/
structure RemoteOracle where
  sms : String → SmsResult
  cancel : String → CancelResult
  balance : Nat → BalanceResult

/-- The sequential per-order loop of one lifecycle sweep
(monitoring.py 155-171): orders are processed in order against the
oracle, threading the store state and accumulating effects. -/
def run_orders (R : RemoteOracle) (now : Int) :
    DBState → List Order → DBState × List Effect
  | s, [] => (s, [])
  | s, o :: rest =>
    let p := check_order_sms s o now (R.sms o.order_id)
      (R.cancel o.order_id) (R.balance o.user_id)
    let q := run_orders R now p.1 rest
    (q.1, p.2 ++ q.2)

/-- One sweep of MonitoringService._monitor_active_orders
(monitoring.py 151-178): process every order returned by
get_all_active_orders. -/
def order_sweep (s : DBState) (R : RemoteOracle) (now : Int) :
    DBState × List Effect :=
  run_orders R now s (get_all_active_orders s now)

/-- True when the effect names the given order, either as a remote call
about it or as a notification about it. -/
def mentionsOrder (e : Effect) (oid : String) : Bool :=
  match e with
  | Effect.callCheckSms i => i == oid
  | Effect.notifySmsReceived _ i _ => i == oid
  | Effect.callCancel i => i == oid
  | Effect.notifyRefunded _ i _ _ => i == oid
  | Effect.notifyExpired _ i => i == oid
  | _ => false

/-- Number of availability notifications addressed to a user in a trace. -/
def countAvailNotifs (l : List Effect) (uid : Nat) : Nat :=
  l.countP (fun e =>
    match e with
    | Effect.notifyAvailability u _ _ => u == uid
    | _ => false)

/-- The terminal statuses of the order state machine. -/
def terminalStatuses : List String :=
  ["completed", "refunded", "expired", "cancelled"]

/-- A stock answer meaning "no SMS yet", used by concrete runs. -/
def noSms : SmsResult :=
  { received := false, sms_content := none, full_sms := none,
    message := "no SMS yet" }

/-- Concrete store for the expired-order sweep run: one monitored user
and one active order whose expires_at (99) is already in the past at
sweep time 100. -/
def dbC1 : DBState :=
  { users := [{ user_id := 1, api_key := "key1", balance := 10,
                is_active := true }],
    orders := [{ order_id := "O1", user_id := 1,
                 phone_number := "+810000000001", status := "active",
                 price := 5, sms_content := none, created_at := 0,
                 expires_at := 99, completed_at := none }],
    monitoring := [{ user_id := 1, is_monitoring := true, last_check := 0,
                     notification_sent := false }] }

/-- Remote results for that run: the refund call would succeed. -/
def oracleC1 : RemoteOracle :=
  { sms := fun _ => noSms,
    cancel := fun _ => { success := true, message := "ok" },
    balance := fun _ => { success := true, balance := 15, message := "ok" } }

/-- Concrete store for the double-notification run: one monitored user
with no orders and notification_sent still false. -/
def dbC2 : DBState :=
  { users := [{ user_id := 1, api_key := "key1", balance := 0,
                is_active := true }],
    orders := [],
    monitoring := [{ user_id := 1, is_monitoring := true, last_check := 0,
                     notification_sent := false }] }

/-- Stock oracle reporting three numbers available on every sweep. -/
def stockC2 : Nat → AvailabilityResult := fun _ =>
  { available := true, count := 3, price := 5,
    service_name := "Pokemon Center", message := "stock available" }

/-- Concrete store for the refund-without-balance-refresh run: the user's
cached balance is 5 and their order is already expired at time 100. -/
def dbC3 : DBState :=
  { users := [{ user_id := 1, api_key := "key1", balance := 5,
                is_active := true }],
    orders := [{ order_id := "O3", user_id := 1, phone_number := "+81003",
                 status := "active", price := 5, sms_content := none,
                 created_at := 0, expires_at := 99, completed_at := none }],
    monitoring := [] }

/-- The order of dbC3, for direct reference. -/
def ordC3 : Order :=
  { order_id := "O3", user_id := 1, phone_number := "+81003",
    status := "active", price := 5, sms_content := none, created_at := 0,
    expires_at := 99, completed_at := none }

/-- Refund call succeeds in the C3 run. -/
def cresC3 : CancelResult := { success := true, message := "ok" }

/-- Balance call fails in the C3 run. -/
def bresC3 : BalanceResult :=
  { success := false, balance := 0, message := "API Error" }

/-- Refund call fails in the C4 run. -/
def cresC4 : CancelResult := { success := false, message := "API Error" }

/-- Balance call would succeed in the C4 run (it is never made). -/
def bresC4 : BalanceResult :=
  { success := true, balance := 15, message := "ok" }

/-- Concrete store for the terminal-order run: a refunded order next to an
active one, plus its owner. -/
def dbC5 : DBState :=
  { users := [{ user_id := 1, api_key := "key1", balance := 5,
                is_active := true }],
    orders := [{ order_id := "T1", user_id := 1, phone_number := "+81005",
                 status := "refunded", price := 5, sms_content := none,
                 created_at := 0, expires_at := 50,
                 completed_at := some 60 },
               { order_id := "A1", user_id := 1, phone_number := "+81006",
                 status := "active", price := 5, sms_content := none,
                 created_at := 0, expires_at := 500,
                 completed_at := none }],
    monitoring := [{ user_id := 1, is_monitoring := true, last_check := 0,
                     notification_sent := false }] }

/-- The terminal order of dbC5, for direct reference. -/
def ordC5 : Order :=
  { order_id := "T1", user_id := 1, phone_number := "+81005",
    status := "refunded", price := 5, sms_content := none,
    created_at := 0, expires_at := 50, completed_at := some 60 }

/-- Remote results for the C5 run. -/
def oracleC5 : RemoteOracle :=
  { sms := fun _ => noSms,
    cancel := fun _ => { success := true, message := "ok" },
    balance := fun _ => { success := true, balance := 15, message := "ok" } }

/-- Concrete store for the skip-rule run: the monitored user owns an
active order. -/
def dbC7 : DBState :=
  { users := [{ user_id := 1, api_key := "key1", balance := 5,
                is_active := true }],
    orders := [{ order_id := "O7", user_id := 1, phone_number := "+81007",
                 status := "active", price := 5, sms_content := none,
                 created_at := 0, expires_at := 500,
                 completed_at := none }],
    monitoring := [{ user_id := 1, is_monitoring := true, last_check := 0,
                     notification_sent := false }] }

/-- The user of dbC7, for direct reference. -/
def userC7 : User :=
  { user_id := 1, api_key := "key1", balance := 5, is_active := true }

/-- Concrete store for the expiry-precedence run. -/
def dbC8 : DBState :=
  { users := [{ user_id := 1, api_key := "key1", balance := 5,
                is_active := true }],
    orders := [{ order_id := "O8", user_id := 1, phone_number := "+81008",
                 status := "active", price := 5, sms_content := none,
                 created_at := 0, expires_at := 99,
                 completed_at := none }],
    monitoring := [] }

/-- The order of dbC8, already expired at time 100. -/
def ordC8 : Order :=
  { order_id := "O8", user_id := 1, phone_number := "+81008",
    status := "active", price := 5, sms_content := none, created_at := 0,
    expires_at := 99, completed_at := none }

/-- An SMS result claiming a received code, to show it is ignored for an
expired order. -/
def sresC8 : SmsResult :=
  { received := true, sms_content := some "12345",
    full_sms := some "code 12345", message := "SMS received" }

/-- A not-yet-expired order owned by user 1, for the C10 run. -/
def ordC10 : Order :=
  { order_id := "O10", user_id := 1, phone_number := "+81010",
    status := "active", price := 5, sms_content := none, created_at := 0,
    expires_at := 500, completed_at := none }

/-- A try/except whose handler returns normally can never surface an
exception: the embedded composite is always an ok value. -/
theorem pyTryCatch_isOk {α : Type} (b : Except String α)
    (h : String → α) : ∃ a, pyTryCatch b h = Except.ok a := by
  cases b with
  | ok a => exact ⟨a, rfl⟩
  | error e => exact ⟨h e, rfl⟩

/-- Claim C6: every Remote Inventory Client operation — credential
verification, stock check, purchase, received-code check, order
cancellation and balance query — returns a typed result value on every
transport outcome (success, non-200 status, timeout, malformed response,
raised exception) and never propagates an exception to its caller. -/
theorem C6_api_never_raises :
    (∀ t : Transport BalanceResponse,
        ∃ r, verify_api_key_checked t = Except.ok r)
    ∧ (∀ (t : Transport StockResponse) (pt : Transport PriceResponse),
        ∃ r, check_service_availability_checked t pt = Except.ok r)
    ∧ (∀ (t : Transport PurchaseResponse) (pt2 : Transport PriceResponse),
        ∃ r, rent_number_checked t pt2 = Except.ok r)
    ∧ (∀ t : Transport SmsCheckResponse,
        ∃ r, check_sms_checked t = Except.ok r)
    ∧ (∀ t : Transport CancelResponse,
        ∃ r, cancel_order_checked t = Except.ok r)
    ∧ (∀ t : Transport BalanceResponse,
        ∃ r, get_balance_checked t = Except.ok r) :=
  ⟨fun _ => pyTryCatch_isOk _ _,
   fun _ _ => pyTryCatch_isOk _ _,
   fun _ _ => pyTryCatch_isOk _ _,
   fun _ => pyTryCatch_isOk _ _,
   fun _ => pyTryCatch_isOk _ _,
   fun _ => pyTryCatch_isOk _ _⟩

/-- Claim C9: every value returned by the stock-availability check has
available = true exactly when the reported count is strictly positive,
and whenever available is false the count and price are both 0 —
on every path, including transport errors, malformed responses and
raised exceptions. -/
theorem C9_availability_invariant (t : Transport StockResponse)
    (pt : Transport PriceResponse) :
    ((check_service_availability t pt).available = true ↔
        0 < (check_service_availability t pt).count)
    ∧ ((check_service_availability t pt).available = false →
        (check_service_availability t pt).count = 0
        ∧ (check_service_availability t pt).price = 0) := by
  unfold check_service_availability check_service_availability_body
  rcases t with o | _
  · rcases hmr : make_request o with _ | r
    · simp [pyTry, hmr]
    · simp only [hmr]
      by_cases h1 : r.success == some 1
      · rcases hA : r.amount with _ | n
        · simp [h1, hA, pyInt, pyTry]
        · rcases n with n | _
          · by_cases hn : 0 < n
            · simp [h1, hA, pyInt, pyTry, hn]
            · simp [h1, hA, pyInt, pyTry, hn]
          · simp [h1, hA, pyInt, pyTry,
              check_service_availability_fallback]
      · by_cases h0 : r.success == some 0
        · simp [h1, h0, pyTry]
        · rcases hS : r.stock with _ | n
          · simp [h1, h0, hS, pyTry]
          · rcases n with n | _
            · by_cases hn : 0 < n
              · simp [h1, h0, hS, pyInt, pyTry, hn]
              · simp [h1, h0, hS, pyInt, pyTry, hn]
            · simp [h1, h0, hS, pyInt, pyTry,
                check_service_availability_fallback]
  · simp [pyTry, check_service_availability_fallback]

/-- Claim C7: a user who has at least one order in active status is
skipped by the availability monitor: no stock check is made for them, no
notification is sent, and nothing in the store changes. -/
theorem C7_active_order_skips_user (s : DBState) (u : User)
    (avail : AvailabilityResult) (now : Int)
    (h : get_active_orders s u.user_id ≠ []) :
    check_service_for_user s u avail now = (s, []) := by
  unfold check_service_for_user
  rw [if_neg h]

/-- Witness for C7: in dbC7 user 1 owns an active order, and even with
stock reported available the per-user check changes nothing and emits no
effect. -/
theorem C7_active_order_skips_user_witness :
    get_active_orders dbC7 userC7.user_id ≠ []
    ∧ check_service_for_user dbC7 userC7 (stockC2 1) 100 = (dbC7, []) :=
  ⟨by decide,
   C7_active_order_skips_user dbC7 userC7 (stockC2 1) 100 (by decide)⟩

/-- Claim C8: an order already past its expires_at at processing time is
routed to expiry handling and the remote received-code check is never
invoked for it in that iteration. -/
theorem C8_expiry_check_precedes_code_check (s : DBState) (o : Order)
    (now : Int) (sres : SmsResult) (cres : CancelResult)
    (bres : BalanceResult) (h : o.expires_at < now) :
    check_order_sms s o now sres cres bres
        = handle_expired_order s o now cres bres
    ∧ ∀ oid, Effect.callCheckSms oid
        ∉ (check_order_sms s o now sres cres bres).2 := by
  have hroute : check_order_sms s o now sres cres bres
      = handle_expired_order s o now cres bres := by
    unfold check_order_sms
    rw [if_pos h]
  refine ⟨hroute, ?_⟩
  intro oid
  rw [hroute]
  unfold handle_expired_order
  rcases get_user s o.user_id with _ | u
  · simp
  · by_cases hc : cres.success <;> simp [hc]

/-- Witness for C8: ordC8 is expired at time 100, and even with an SMS
result claiming a received code the handler routes to expiry handling
and never calls the received-code check. -/
theorem C8_expiry_check_precedes_code_check_witness :
    ordC8.expires_at < 100
    ∧ (check_order_sms dbC8 ordC8 100 sresC8 cresC3 bresC3
          = handle_expired_order dbC8 ordC8 100 cresC3 bresC3
        ∧ ∀ oid, Effect.callCheckSms oid
            ∉ (check_order_sms dbC8 ordC8 100 sresC8 cresC3 bresC3).2) :=
  ⟨by decide,
   C8_expiry_check_precedes_code_check dbC8 ordC8 100 sresC8 cresC3 bresC3
     (by decide)⟩

/-- Claim C10: every error outcome of the received-code check — no
response from the transport layer or an exception raised in the
operation — yields received = false with sms_content = none, exactly the
shape of the legitimate "no SMS yet" answer; and at the call site a
received = false result never changes the store state for a non-expired
order, so a transport error only delays detection to a later sweep. -/
theorem C10_sms_error_indistinguishable :
    (∀ o : RequestOutcome SmsCheckResponse, make_request o = none →
        (check_sms (Transport.net o)).received = false
        ∧ (check_sms (Transport.net o)).sms_content = none)
    ∧ ((check_sms Transport.raisedInBody).received = false
        ∧ (check_sms Transport.raisedInBody).sms_content = none)
    ∧ (∀ (s : DBState) (o : Order) (now : Int) (sres : SmsResult)
          (cres : CancelResult) (bres : BalanceResult),
        ¬ o.expires_at < now → sres.received = false →
          (check_order_sms s o now sres cres bres).1 = s) := by
  refine ⟨?_, ?_, ?_⟩
  · intro o h
    simp [check_sms, check_sms_body, pyTry, h]
  · simp [check_sms, check_sms_body, pyTry, check_sms_fallback]
  · intro s o now sres cres bres hexp hrec
    unfold check_order_sms
    rw [if_neg hexp]
    rcases get_user s o.user_id with _ | u
    · rfl
    · simp [hrec]

/-- Witness for C10: a timeout on the /sms/check call produces the
no-SMS shape, and the per-order handler run on the non-expired ordC10
with that result leaves the store untouched. -/
theorem C10_sms_error_indistinguishable_witness :
    make_request (RequestOutcome.timeout : RequestOutcome SmsCheckResponse)
        = none
    ∧ ((check_sms (Transport.net
          (RequestOutcome.timeout : RequestOutcome SmsCheckResponse))).received
            = false
        ∧ (check_sms (Transport.net
            (RequestOutcome.timeout :
              RequestOutcome SmsCheckResponse))).sms_content = none)
    ∧ (check_order_sms dbC7 ordC10 100 noSms cresC3 bresC3).1 = dbC7 :=
  ⟨rfl,
   C10_sms_error_indistinguishable.1 RequestOutcome.timeout rfl,
   C10_sms_error_indistinguishable.2.2 dbC7 ordC10 100 noSms cresC3 bresC3
     (by decide) rfl⟩

/-- Counterexample for claim C2: over a contiguous window in which the
stock check reports count = 3 on two consecutive sweeps, the user of dbC2
receives two availability notifications, not exactly one — the send is
not guarded by notification_sent. -/
theorem C2_counterexample_double_notification :
    countAvailNotifs
        ((availability_sweep dbC2 stockC2 100).2
          ++ (availability_sweep (availability_sweep dbC2 stockC2 100).1
                stockC2 130).2) 1 = 2 := by
  decide

/-- Claim C2 (amended): on every sweep in which the user has no active
order, a positive stock count yields exactly one availability
notification for that sweep — regardless of notification_sent, which is
never read — with notification_sent then set to true; while a
non-positive count sends nothing and sets notification_sent back to
false, which is the window reset. -/
theorem C2_notification_every_sweep (s : DBState) (u : User)
    (avail : AvailabilityResult) (now : Int)
    (h : get_active_orders s u.user_id = []) :
    (avail.available = true → 0 < avail.count →
      check_service_for_user s u avail now
        = (update_monitoring_status s u.user_id now true,
           [Effect.callCheckStock u.user_id,
            Effect.notifyAvailability u.user_id avail.count avail.price]))
    ∧ (avail.available = false ∨ avail.count ≤ 0 →
      check_service_for_user s u avail now
        = (update_monitoring_status s u.user_id now false,
           [Effect.callCheckStock u.user_id])) := by
  unfold check_service_for_user
  rw [if_pos h]
  constructor
  · intro h1 h2
    rw [if_pos]
    simp [h1, h2]
  · intro h12
    rw [if_neg]
    rcases h12 with h1 | h2
    · simp [h1]
    · simp
      intro _
      omega

/-- Witness for the amended C2: in dbC2 the user has no active order; a
sweep at time 100 with three numbers in stock sends exactly the one
notification of that sweep and records notification_sent = true. -/
theorem C2_notification_every_sweep_witness :
    get_active_orders dbC2 1 = []
    ∧ ((stockC2 1).available = true → 0 < (stockC2 1).count →
        check_service_for_user dbC2
            { user_id := 1, api_key := "key1", balance := 0,
              is_active := true } (stockC2 1) 100
          = (update_monitoring_status dbC2 1 100 true,
             [Effect.callCheckStock 1,
              Effect.notifyAvailability 1 (stockC2 1).count
                (stockC2 1).price])) :=
  ⟨by decide,
   (C2_notification_every_sweep dbC2
     { user_id := 1, api_key := "key1", balance := 0, is_active := true }
     (stockC2 1) 100 (by decide)).1⟩

/-- Every order of the mapped list that carries the updated order_id has
the new status and completion time: the row update of
update_order_status hits exactly the rows with that id. -/
theorem mem_update_order_status {s : DBState} {oid st : String}
    {now : Int} {o' : Order}
    (h : o' ∈ (update_order_status s oid st now).orders)
    (hid : o'.order_id = oid) :
    o'.status = st ∧ o'.completed_at = some now := by
  unfold update_order_status at h
  simp only [List.mem_map] at h
  obtain ⟨x, _, rfl⟩ := h
  by_cases hx : x.order_id == oid
  · simp [hx]
  · rw [if_neg hx] at hid ⊢
    exact absurd (by simp [hid]) hx

/-- Every user of the mapped list that carries the updated user_id has
the new balance. -/
theorem mem_update_user_balance {s : DBState} {uid : Nat} {b : Rat}
    {u' : User} (h : u' ∈ (update_user_balance s uid b).users)
    (hid : u'.user_id = uid) : u'.balance = b := by
  unfold update_user_balance at h
  simp only [List.mem_map] at h
  obtain ⟨x, _, rfl⟩ := h
  by_cases hx : x.user_id == uid
  · simp [hx]
  · rw [if_neg hx] at hid ⊢
    exact absurd (by simp [hid]) hx

/-- Counterexample for claim C3: in dbC3 the expiry handler processes the
expired active order, the cancel call succeeds, but the balance call
fails — the order does transition to refunded, yet the user's cached
balance is left at its old value 5 instead of being refreshed, and the
notification shows the 0 carried by the failed balance dict. -/
theorem C3_counterexample_balance_not_refreshed :
    (check_order_sms dbC3 ordC3 100 noSms cresC3 bresC3).1.users
        = dbC3.users
    ∧ (check_order_sms dbC3 ordC3 100 noSms cresC3 bresC3).1.orders
        = [{ ordC3 with status := "refunded", completed_at := some 100 }]
    ∧ (check_order_sms dbC3 ordC3 100 noSms cresC3 bresC3).2
        = [Effect.callCancel "O3", Effect.callGetBalance 1,
           Effect.notifyRefunded 1 "O3" 5 0] := by
  decide

/-- Claim C3 (amended): when the expiry handler processes an active order
past its deadline and the remote cancel call reports success, the order's
status transitions to refunded with completed_at set and the user is
notified with the refunded amount; the cached balance is refreshed from
the GetBalance result when that call succeeds, and is left unchanged when
it fails (the notification then shows the failed dict's balance value). -/
theorem C3_refund_success_refunded (s : DBState) (o : Order) (now : Int)
    (sres : SmsResult) (cres : CancelResult) (bres : BalanceResult)
    (u : User) (hexp : o.expires_at < now)
    (hu : get_user s o.user_id = some u) (hc : cres.success = true) :
    (∀ o' ∈ (check_order_sms s o now sres cres bres).1.orders,
        o'.order_id = o.order_id →
          o'.status = "refunded" ∧ o'.completed_at = some now)
    ∧ (bres.success = true →
        ∀ u' ∈ (check_order_sms s o now sres cres bres).1.users,
          u'.user_id = o.user_id → u'.balance = bres.balance)
    ∧ (bres.success = false →
        (check_order_sms s o now sres cres bres).1.users = s.users)
    ∧ (check_order_sms s o now sres cres bres).2
        = [Effect.callCancel o.order_id, Effect.callGetBalance o.user_id,
           Effect.notifyRefunded o.user_id o.order_id o.price
             bres.balance] := by
  have hroute : check_order_sms s o now sres cres bres
      = handle_expired_order s o now cres bres := by
    unfold check_order_sms
    rw [if_pos hexp]
  rw [hroute]
  unfold handle_expired_order
  rw [hu]
  simp only [hc, if_true]
  by_cases hb : bres.success
  · refine ⟨?_, ?_, ?_, ?_⟩
    · intro o' ho' hid
      simp only [hb, if_true] at ho'
      exact mem_update_order_status ho' hid
    · intro _ u' hu' hid
      simp only [hb, if_true] at hu'
      exact mem_update_user_balance hu' hid
    · intro hb'
      rw [hb] at hb'
      exact absurd hb' (by simp)
    · simp [hb]
  · refine ⟨?_, ?_, ?_, ?_⟩
    · intro o' ho' hid
      simp only [hb, if_false] at ho'
      exact mem_update_order_status ho' hid
    · intro hb'
      rw [hb'] at hb
      exact absurd rfl hb
    · intro _
      simp [hb, update_order_status, update_user_balance]
    · simp [hb]

/-- Witness for the amended C3: the dbC3 run (cancel succeeds, balance
call fails) satisfies every conclusion of the amended claim. -/
theorem C3_refund_success_refunded_witness :
    ordC3.expires_at < 100
    ∧ get_user dbC3 ordC3.user_id
        = some { user_id := 1, api_key := "key1", balance := 5,
                 is_active := true }
    ∧ cresC3.success = true
    ∧ ((∀ o' ∈ (check_order_sms dbC3 ordC3 100 noSms cresC3 bresC3).1.orders,
          o'.order_id = ordC3.order_id →
            o'.status = "refunded" ∧ o'.completed_at = some 100)
      ∧ (bresC3.success = true →
          ∀ u' ∈ (check_order_sms dbC3 ordC3 100 noSms cresC3 bresC3).1.users,
            u'.user_id = ordC3.user_id → u'.balance = bresC3.balance)
      ∧ (bresC3.success = false →
          (check_order_sms dbC3 ordC3 100 noSms cresC3 bresC3).1.users
            = dbC3.users)
      ∧ (check_order_sms dbC3 ordC3 100 noSms cresC3 bresC3).2
          = [Effect.callCancel ordC3.order_id,
             Effect.callGetBalance ordC3.user_id,
             Effect.notifyRefunded ordC3.user_id ordC3.order_id ordC3.price
               bresC3.balance]) :=
  ⟨by decide, by decide, rfl,
   C3_refund_success_refunded dbC3 ordC3 100 noSms cresC3 bresC3
     { user_id := 1, api_key := "key1", balance := 5, is_active := true }
     (by decide) (by decide) rfl⟩

/-- Claim C4: when the expiry handler processes an active order past its
deadline and the remote cancel call fails, the order transitions to the
terminal expired status, the user store is untouched (no balance
refresh — indeed no GetBalance call is made), and the user receives the
manual-support notification. -/
theorem C4_refund_failure_expired (s : DBState) (o : Order) (now : Int)
    (sres : SmsResult) (cres : CancelResult) (bres : BalanceResult)
    (u : User) (hexp : o.expires_at < now)
    (hu : get_user s o.user_id = some u) (hc : cres.success = false) :
    (∀ o' ∈ (check_order_sms s o now sres cres bres).1.orders,
        o'.order_id = o.order_id →
          o'.status = "expired" ∧ o'.completed_at = some now)
    ∧ (check_order_sms s o now sres cres bres).1.users = s.users
    ∧ (check_order_sms s o now sres cres bres).2
        = [Effect.callCancel o.order_id,
           Effect.notifyExpired o.user_id o.order_id] := by
  have hroute : check_order_sms s o now sres cres bres
      = handle_expired_order s o now cres bres := by
    unfold check_order_sms
    rw [if_pos hexp]
  rw [hroute]
  unfold handle_expired_order
  rw [hu]
  simp only [hc, if_false]
  refine ⟨?_, ?_, ?_⟩
  · intro o' ho' hid
    exact mem_update_order_status ho' hid
  · simp [update_order_status]
  · simp

/-- Witness for C4: the dbC3 store with a failing cancel call ends with
the order expired, the user rows untouched, and only the cancel call and
the manual-support notification in the trace. -/
theorem C4_refund_failure_expired_witness :
    ordC3.expires_at < 100
    ∧ get_user dbC3 ordC3.user_id
        = some { user_id := 1, api_key := "key1", balance := 5,
                 is_active := true }
    ∧ cresC4.success = false
    ∧ ((∀ o' ∈ (check_order_sms dbC3 ordC3 100 noSms cresC4 bresC4).1.orders,
          o'.order_id = ordC3.order_id →
            o'.status = "expired" ∧ o'.completed_at = some 100)
      ∧ (check_order_sms dbC3 ordC3 100 noSms cresC4 bresC4).1.users
          = dbC3.users
      ∧ (check_order_sms dbC3 ordC3 100 noSms cresC4 bresC4).2
          = [Effect.callCancel ordC3.order_id,
             Effect.notifyExpired ordC3.user_id ordC3.order_id]) :=
  ⟨by decide, by decide, rfl,
   C4_refund_failure_expired dbC3 ordC3 100 noSms cresC4 bresC4
     { user_id := 1, api_key := "key1", balance := 5, is_active := true }
     (by decide) (by decide) rfl⟩

/-- Claim C1, evaluated at the failing input: in dbC1 the order is active
and already past its expires_at at sweep time 100, yet the sweep query
get_all_active_orders — which filters on expires_at > now, contrary to
the specified ListActiveOrders contract — returns nothing, so the sweep
performs no expiry handling at all: no state change, no cancel call, no
notification. The order is stranded in active status. -/
theorem C1_expired_active_order_never_swept :
    dbC1.orders = [{ order_id := "O1", user_id := 1,
                     phone_number := "+810000000001", status := "active",
                     price := 5, sms_content := none, created_at := 0,
                     expires_at := 99, completed_at := none }]
    ∧ get_all_active_orders dbC1 100 = []
    ∧ order_sweep dbC1 oracleC1 100 = (dbC1, []) := by
  refine ⟨rfl, by decide, ?_⟩
  show run_orders oracleC1 100 dbC1 (get_all_active_orders dbC1 100)
      = (dbC1, [])
  have h : get_all_active_orders dbC1 100 = [] := by decide
  rw [h]
  rfl

/-- A row update keyed on one order_id leaves the rows carrying any other
order_id untouched, provided the row modifier preserves order_id. -/
theorem filter_map_update (l : List Order) (tid oid : String)
    (f : Order → Order) (hf : ∀ x, (f x).order_id = x.order_id)
    (h : tid ≠ oid) :
    (l.map (fun x => if x.order_id == tid then f x else x)).filter
        (fun x => x.order_id == oid)
      = l.filter (fun x => x.order_id == oid) := by
  induction l with
  | nil => rfl
  | cons a l ih =>
    rw [List.map_cons]
    by_cases ha : a.order_id = tid
    · have h1 : (a.order_id == tid) = true := by simp [ha]
      have h2 : ((f a).order_id == oid) = false := by simp [hf a, ha, h]
      have h3 : (a.order_id == oid) = false := by simp [ha, h]
      rw [if_pos h1]
      simp only [List.filter_cons, h2, h3, Bool.false_eq_true, if_false]
      exact ih
    · have h1 : (a.order_id == tid) = false := by simp [ha]
      rw [if_neg (by simp [h1])]
      simp only [List.filter_cons]
      rw [ih]

/-- update_order_status only rewrites rows with the updated id. -/
theorem update_order_status_filter (s : DBState) (tid st : String)
    (now : Int) (oid : String) (h : tid ≠ oid) :
    (update_order_status s tid st now).orders.filter
        (fun x => x.order_id == oid)
      = s.orders.filter (fun x => x.order_id == oid) :=
  filter_map_update s.orders tid oid _ (fun _ => rfl) h

/-- update_order_sms only rewrites rows with the updated id. -/
theorem update_order_sms_filter (s : DBState) (tid : String)
    (content : Option String) (now : Int) (oid : String) (h : tid ≠ oid) :
    (update_order_sms s tid content now).orders.filter
        (fun x => x.order_id == oid)
      = s.orders.filter (fun x => x.order_id == oid) :=
  filter_map_update s.orders tid oid _ (fun _ => rfl) h

/-- Processing one order touches only rows carrying that order's id and
emits only effects mentioning that order: any other order's rows are
preserved and no effect mentions it. -/
theorem check_order_sms_isolated (s : DBState) (o : Order) (now : Int)
    (sres : SmsResult) (cres : CancelResult) (bres : BalanceResult)
    (oid : String) (h : o.order_id ≠ oid) :
    ((check_order_sms s o now sres cres bres).1.orders.filter
        (fun x => x.order_id == oid)
      = s.orders.filter (fun x => x.order_id == oid))
    ∧ ∀ e ∈ (check_order_sms s o now sres cres bres).2,
        mentionsOrder e oid = false := by
  unfold check_order_sms
  by_cases hexp : o.expires_at < now
  · simp only [hexp, if_true]
    unfold handle_expired_order
    rcases hg : get_user s o.user_id with _ | u
    · exact ⟨rfl, by simp⟩
    · by_cases hc : cres.success
      · simp only [hc, if_true]
        by_cases hb : bres.success
        · simp only [hb, if_true]
          refine ⟨?_, ?_⟩
          · show ((update_user_balance
                (update_order_status s o.order_id "refunded" now)
                o.user_id bres.balance).orders.filter
                  (fun x => x.order_id == oid)) = _
            exact update_order_status_filter s o.order_id "refunded" now
              oid h
          · simp [mentionsOrder, h]
        · simp only [hb, if_false]
          exact ⟨update_order_status_filter s o.order_id "refunded" now
              oid h,
            by simp [mentionsOrder, h]⟩
      · simp only [hc, if_false]
        exact ⟨update_order_status_filter s o.order_id "expired" now oid h,
          by simp [mentionsOrder, h]⟩
  · simp only [hexp, if_false]
    rcases hg : get_user s o.user_id with _ | u
    · exact ⟨rfl, by simp⟩
    · by_cases hr : sres.received
      · simp only [hr, if_true]
        unfold handle_sms_received
        exact ⟨update_order_sms_filter s o.order_id sres.sms_content now
            oid h,
          by simp [mentionsOrder, h]⟩
      · simp only [hr, if_false]
        exact ⟨rfl, by simp [mentionsOrder, h]⟩

/-- Running the lifecycle loop over a list of orders none of which
carries a given id preserves the rows with that id and emits no effect
mentioning it. -/
theorem run_orders_isolated (R : RemoteOracle) (now : Int) (oid : String) :
    ∀ (l : List Order) (s : DBState), (∀ q ∈ l, q.order_id ≠ oid) →
      ((run_orders R now s l).1.orders.filter (fun x => x.order_id == oid)
          = s.orders.filter (fun x => x.order_id == oid))
      ∧ ∀ e ∈ (run_orders R now s l).2, mentionsOrder e oid = false := by
  intro l
  induction l with
  | nil =>
    intro s _
    exact ⟨rfl, by simp [run_orders]⟩
  | cons o rest ih =>
    intro s h
    have ho : o.order_id ≠ oid := h o (List.mem_cons_self o rest)
    have hrest : ∀ q ∈ rest, q.order_id ≠ oid :=
      fun q hq => h q (List.mem_cons_of_mem o hq)
    have hstep := check_order_sms_isolated s o now (R.sms o.order_id)
      (R.cancel o.order_id) (R.balance o.user_id) oid ho
    have hrec := ih (check_order_sms s o now (R.sms o.order_id)
      (R.cancel o.order_id) (R.balance o.user_id)).1 hrest
    simp only [run_orders]
    refine ⟨hrec.1.trans hstep.1, ?_⟩
    intro e he
    rcases List.mem_append.1 he with h1 | h2
    · exact hstep.2 e h1
    · exact hrec.2 e h2

/-- One per-user availability check never touches the orders table. -/
theorem check_service_for_user_orders (s : DBState) (u : User)
    (avail : AvailabilityResult) (now : Int) :
    (check_service_for_user s u avail now).1.orders = s.orders := by
  unfold check_service_for_user
  split
  · split <;> rfl
  · rfl

/-- The availability loop never touches the orders table. -/
theorem run_users_orders_unchanged (stock : Nat → AvailabilityResult)
    (now : Int) :
    ∀ (l : List User) (s : DBState),
      (run_users stock now s l).1.orders = s.orders := by
  intro l
  induction l with
  | nil => intro s; rfl
  | cons u rest ih =>
    intro s
    simp only [run_users]
    rw [ih]
    exact check_service_for_user_orders s u (stock u.user_id) now

/-- Claim C5: an order whose status is terminal (completed, refunded,
expired or cancelled) is excluded from both monitor queries; a lifecycle
sweep neither rewrites its row nor emits any call or notification
mentioning it (order ids being unique), and an availability sweep leaves
the orders table entirely unchanged. -/
theorem C5_terminal_orders_excluded (s : DBState) (o : Order)
    (now now2 : Int) (R : RemoteOracle)
    (stock : Nat → AvailabilityResult) (hmem : o ∈ s.orders)
    (hterm : o.status ∈ terminalStatuses)
    (hids : s.orders.Pairwise (fun a b => a.order_id ≠ b.order_id)) :
    o ∉ get_all_active_orders s now
    ∧ o ∉ get_active_orders s o.user_id
    ∧ ((order_sweep s R now).1.orders.filter
          (fun x => x.order_id == o.order_id)
        = s.orders.filter (fun x => x.order_id == o.order_id))
    ∧ (∀ e ∈ (order_sweep s R now).2, mentionsOrder e o.order_id = false)
    ∧ (availability_sweep s stock now2).1.orders = s.orders := by
  have hactive : o.status ≠ "active" := by
    simp only [terminalStatuses, List.mem_cons, List.mem_singleton,
      List.not_mem_nil, or_false] at hterm
    rcases hterm with h | h | h | h <;> simp [h]
  have hq : ∀ q ∈ get_all_active_orders s now,
      q.order_id ≠ o.order_id := by
    intro q hqmem
    have hq1 := List.mem_filter.1 hqmem
    have hq2 : q.status = "active" := by
      have := hq1.2
      simp only [Bool.and_eq_true, beq_iff_eq, decide_eq_true_eq] at this
      exact this.1
    have hqo : q ≠ o := by
      intro hcontra
      rw [hcontra] at hq2
      exact hactive hq2
    exact hids.forall (fun _ _ hab => hab.symm) hq1.1 hmem hqo
  refine ⟨?_, ?_, ?_, ?_, ?_⟩
  · intro hin
    have := (List.mem_filter.1 hin).2
    simp only [Bool.and_eq_true, beq_iff_eq, decide_eq_true_eq] at this
    exact hactive this.1
  · intro hin
    have := (List.mem_filter.1 hin).2
    simp only [Bool.and_eq_true, beq_iff_eq, decide_eq_true_eq] at this
    exact hactive this.2
  · exact (run_orders_isolated R now o.order_id
      (get_all_active_orders s now) s hq).1
  · exact (run_orders_isolated R now o.order_id
      (get_all_active_orders s now) s hq).2
  · exact run_users_orders_unchanged stock now2 (get_all_active_users s) s

/-- Witness for C5: in dbC5 the refunded order T1 sits next to an active
order; a lifecycle sweep at time 100 and an availability sweep at time
100 leave T1's row untouched and send nothing about it. -/
theorem C5_terminal_orders_excluded_witness :
    ordC5 ∈ dbC5.orders
    ∧ ordC5.status ∈ terminalStatuses
    ∧ dbC5.orders.Pairwise (fun a b => a.order_id ≠ b.order_id)
    ∧ (ordC5 ∉ get_all_active_orders dbC5 100
      ∧ ordC5 ∉ get_active_orders dbC5 ordC5.user_id
      ∧ ((order_sweep dbC5 oracleC5 100).1.orders.filter
            (fun x => x.order_id == ordC5.order_id)
          = dbC5.orders.filter (fun x => x.order_id == ordC5.order_id))
      ∧ (∀ e ∈ (order_sweep dbC5 oracleC5 100).2,
          mentionsOrder e ordC5.order_id = false)
      ∧ (availability_sweep dbC5 stockC2 100).1.orders = dbC5.orders) :=
  ⟨by decide, by decide, by decide,
   C5_terminal_orders_excluded dbC5 ordC5 100 100 oracleC5 stockC2
     (by decide) (by decide) (by decide)⟩

/-- Witness for C9: a timeout on the stock endpoint yields an
unavailable result whose count and price are both 0. -/
theorem C9_availability_invariant_witness :
    (check_service_availability
        (Transport.net (RequestOutcome.timeout :
          RequestOutcome StockResponse))
        (Transport.net (RequestOutcome.timeout :
          RequestOutcome PriceResponse))).available = false
    ∧ (check_service_availability
        (Transport.net (RequestOutcome.timeout :
          RequestOutcome StockResponse))
        (Transport.net (RequestOutcome.timeout :
          RequestOutcome PriceResponse))).count = 0
    ∧ (check_service_availability
        (Transport.net (RequestOutcome.timeout :
          RequestOutcome StockResponse))
        (Transport.net (RequestOutcome.timeout :
          RequestOutcome PriceResponse))).price = 0 := by
  have h := (C9_availability_invariant
    (Transport.net (RequestOutcome.timeout : RequestOutcome StockResponse))
    (Transport.net (RequestOutcome.timeout :
      RequestOutcome PriceResponse))).2 (by decide)
  exact ⟨by decide, h.1, h.2⟩
